import Mathlib

/-
A shallow embedding of `litestar/cli/commands/core.py`: the `run` CLI
command, its configuration resolution, the server lifespan context
manager, and the uvicorn argument marshalling, together with theorems
checking the natural-language specification against this embedding.
-/

namespace LitestarRun

/-! Values that can appear in the `process_args` mapping handed to
`_convert_uvicorn_args`.  Python distinguishes `bool`, `tuple` and
everything else (rendered through `str`); we carry the `str` rendering of
"other" values directly. -/

inductive UArg where
  | bool (b : Bool)
  | tuple (items : List String)
  | other (v : String)
deriving DecidableEq, Repr

/-- Embedding of `_convert_uvicorn_args` (core.py lines 56-67): a fold over
the mapping in order, appending tokens to the accumulated `process_args`
list exactly as the Python `for` loop does. -/
def convert_uvicorn_args (args : List (String × UArg)) : List String :=
  args.foldl
    (fun process_args p =>
      match p.2 with
      | UArg.bool b => if b then process_args ++ ["--" ++ p.1] else process_args
      | UArg.tuple items => process_args ++ items.map (fun item => "--" ++ p.1 ++ "=" ++ item)
      | UArg.other v => process_args ++ ["--" ++ p.1 ++ "=" ++ v])
    []

/-- The tokens contributed by one mapping entry, written after the spec's
per-entry rules (bare flag for true, nothing for false, one repeated token
per tuple element, a single `--name=value` token otherwise). -/
def uvicornArgTokens (p : String × UArg) : List String :=
  match p.2 with
  | UArg.bool b => if b then ["--" ++ p.1] else []
  | UArg.tuple items => items.map (fun item => "--" ++ p.1 ++ "=" ++ item)
  | UArg.other v => ["--" ++ p.1 ++ "=" ++ v]

theorem convert_uvicorn_args_foldl (args : List (String × UArg)) (acc : List String) :
    args.foldl
      (fun process_args p =>
        match p.2 with
        | UArg.bool b => if b then process_args ++ ["--" ++ p.1] else process_args
        | UArg.tuple items => process_args ++ items.map (fun item => "--" ++ p.1 ++ "=" ++ item)
        | UArg.other v => process_args ++ ["--" ++ p.1 ++ "=" ++ v])
      acc = acc ++ (args.map uvicornArgTokens).flatten := by
  induction args generalizing acc with
  | nil => simp
  | cons p rest ih =>
      rcases p with ⟨name, value⟩
      cases value with
      | bool b =>
          cases b <;> simp [ih, uvicornArgTokens]
      | tuple items =>
          simp [ih, uvicornArgTokens]
      | other v =>
          simp [ih, uvicornArgTokens]

/-- The marshaller, as a flat map of the per-entry rule over the mapping in
order. -/
theorem convert_uvicorn_args_eq_flatten (args : List (String × UArg)) :
    convert_uvicorn_args args = (args.map uvicornArgTokens).flatten := by
  simpa using convert_uvicorn_args_foldl args []

/-- C3: the Argument Marshaller emits, in input-mapping order, no token for
a boolean-false value, a bare `--name` token for boolean true, one
`--name=item` token per element for a tuple, and a single `--name=value`
token otherwise; in particular
`{reload: true, host: "0.0.0.0", reload-dir: ("a","b")}` yields exactly
`["--reload", "--host=0.0.0.0", "--reload-dir=a", "--reload-dir=b"]` and
`{reload: false}` yields `[]`. -/
theorem claim_C3_argument_marshaller :
    (∀ args : List (String × UArg),
        convert_uvicorn_args args = (args.map uvicornArgTokens).flatten)
    ∧ convert_uvicorn_args
        [("reload", UArg.bool true), ("host", UArg.other "0.0.0.0"),
          ("reload-dir", UArg.tuple ["a", "b"])]
        = ["--reload", "--host=0.0.0.0", "--reload-dir=a", "--reload-dir=b"]
    ∧ convert_uvicorn_args [("reload", UArg.bool false)] = [] :=
  ⟨convert_uvicorn_args_eq_flatten, by decide, by decide⟩

/-! ### Lifespan supervisor: `_server_lifespan` (core.py lines 41-53)

A registered manager is either an already-usable context manager or a
factory that, given the application, produces one (the code tests
`isinstance(manager, AbstractContextManager)` and calls `manager(app)`
otherwise).  A context manager is modelled by an identifier plus flags
saying whether its `__enter__` respectively `__exit__` raises; the
behaviour of `ExitStack` is modelled by the event trace it produces. -/

structure CM where
  id : Nat
  enterFails : Bool
  exitFails : Bool
deriving DecidableEq, Repr

inductive LifespanManager (A : Type) where
  | prepared (cm : CM)
  | factory (f : A → CM)

/-- The `manager = manager(app)` normalisation at the top of the loop body. -/
def resolveManager {A : Type} (app : A) : LifespanManager A → CM
  | .prepared cm => cm
  | .factory f => f app

inductive LEvent where
  | factoryCall (id : Nat)
  | enter (id : Nat)
  | body
  | exitEv (id : Nat)
deriving DecidableEq, Repr

/-- The acquisition loop of `_server_lifespan`: managers are visited in
registration order; a factory entry is first invoked with the app (the
`factoryCall` event), then `exit_stack.enter_context` runs the manager's
`__enter__` (the `enter` event) and pushes its `__exit__` onto the stack.
A raising `__enter__` stops the loop.  Returns the events, the acquired
context managers in acquisition order, and whether all were acquired. -/
def acquireLoop {A : Type} (app : A) :
    List (LifespanManager A) → List LEvent × List CM × Bool
  | [] => ([], [], true)
  | m :: rest =>
    let cm := resolveManager app m
    let pre : List LEvent :=
      match m with
      | .factory _ => [LEvent.factoryCall cm.id]
      | .prepared _ => []
    if cm.enterFails then (pre, [], false)
    else
      let r := acquireLoop app rest
      (pre ++ LEvent.enter cm.id :: r.1, cm :: r.2.1, r.2.2)

/-- `ExitStack` unwinding: every pushed `__exit__` is called, in the order
given (reverse acquisition order); a raising `__exit__` is remembered but
does not stop the remaining calls. -/
def releaseLoop : List CM → List LEvent × Bool
  | [] => ([], false)
  | cm :: rest =>
    let r := releaseLoop rest
    (LEvent.exitEv cm.id :: r.1, cm.exitFails || r.2)

structure LifespanRun where
  trace : List LEvent
  bodyRaised : Bool
  releaseRaised : Bool
deriving DecidableEq, Repr

/-- Embedding of `_server_lifespan`: acquire all managers, run the body
(the `yield`, during which the server strategy runs and may raise), then
unwind the `ExitStack`.  The unwind happens on every path: after the body
returns, after the body raises, and after acquisition fails partway. -/
def server_lifespan {A : Type} (app : A) (ms : List (LifespanManager A))
    (bodyRaises : Bool) : LifespanRun :=
  let a := acquireLoop app ms
  let r := releaseLoop a.2.1.reverse
  { trace := a.1 ++ (if a.2.2 then [LEvent.body] else []) ++ r.1
    bodyRaised := a.2.2 && bodyRaises
    releaseRaised := r.2 }

/-- The context managers the spec says get acquired: the longest prefix of
the (factory-resolved) registration list whose `__enter__` succeeds. -/
def acquiredCMs {A : Type} (app : A) (ms : List (LifespanManager A)) : List CM :=
  (ms.map (resolveManager app)).takeWhile (fun cm => !cm.enterFails)

def acquiredIds {A : Type} (app : A) (ms : List (LifespanManager A)) : List Nat :=
  (acquiredCMs app ms).map CM.id

def enterIds : List LEvent → List Nat
  | [] => []
  | LEvent.enter i :: t => i :: enterIds t
  | _ :: t => enterIds t

def exitIds : List LEvent → List Nat
  | [] => []
  | LEvent.exitEv i :: t => i :: exitIds t
  | _ :: t => exitIds t

theorem enterIds_append (t₁ t₂ : List LEvent) :
    enterIds (t₁ ++ t₂) = enterIds t₁ ++ enterIds t₂ := by
  induction t₁ with
  | nil => rfl
  | cons e t ih => cases e <;> simp [enterIds, ih]

theorem exitIds_append (t₁ t₂ : List LEvent) :
    exitIds (t₁ ++ t₂) = exitIds t₁ ++ exitIds t₂ := by
  induction t₁ with
  | nil => rfl
  | cons e t ih => cases e <;> simp [exitIds, ih]

theorem acquireLoop_acquired {A : Type} (app : A) (ms : List (LifespanManager A)) :
    (acquireLoop app ms).2.1 = acquiredCMs app ms := by
  induction ms with
  | nil => rfl
  | cons m rest ih =>
      cases m with
      | prepared cm =>
          by_cases h : cm.enterFails <;>
            simp [acquireLoop, acquiredCMs, resolveManager, h, ih, List.takeWhile]
      | factory f =>
          by_cases h : (f app).enterFails <;>
            simp [acquireLoop, acquiredCMs, resolveManager, h, ih, List.takeWhile]

theorem enterIds_acquireLoop {A : Type} (app : A) (ms : List (LifespanManager A)) :
    enterIds (acquireLoop app ms).1 = (acquireLoop app ms).2.1.map CM.id := by
  induction ms with
  | nil => rfl
  | cons m rest ih =>
      cases m with
      | prepared cm =>
          by_cases h : cm.enterFails <;>
            simp [acquireLoop, resolveManager, h, enterIds, enterIds_append, ih]
      | factory f =>
          by_cases h : (f app).enterFails <;>
            simp [acquireLoop, resolveManager, h, enterIds, enterIds_append, ih]

theorem exitIds_acquireLoop {A : Type} (app : A) (ms : List (LifespanManager A)) :
    exitIds (acquireLoop app ms).1 = [] := by
  induction ms with
  | nil => rfl
  | cons m rest ih =>
      cases m with
      | prepared cm =>
          by_cases h : cm.enterFails <;>
            simp [acquireLoop, resolveManager, h, exitIds, exitIds_append, ih]
      | factory f =>
          by_cases h : (f app).enterFails <;>
            simp [acquireLoop, resolveManager, h, exitIds, exitIds_append, ih]

theorem releaseLoop_events (l : List CM) :
    (releaseLoop l).1 = l.map (fun cm => LEvent.exitEv cm.id) := by
  induction l with
  | nil => rfl
  | cons cm rest ih => simp [releaseLoop, ih]

theorem exitIds_map_exitEv (l : List CM) :
    exitIds (l.map (fun cm => LEvent.exitEv cm.id)) = l.map CM.id := by
  induction l with
  | nil => rfl
  | cons cm rest ih => simp [exitIds, ih]

theorem enterIds_map_exitEv (l : List CM) :
    enterIds (l.map (fun cm => LEvent.exitEv cm.id)) = [] := by
  induction l with
  | nil => rfl
  | cons cm rest ih => simp [enterIds, ih]

theorem count_exitEv_eq_count_exitIds (t : List LEvent) (i : Nat) :
    t.count (LEvent.exitEv i) = (exitIds t).count i := by
  induction t with
  | nil => rfl
  | cons e rest ih => cases e <;> simp [exitIds, List.count_cons, ih]

theorem acquireLoop_factory_events {A : Type} (app : A) (ms : List (LifespanManager A))
    (f : A → CM)
    (hm : LifespanManager.factory f ∈ ms.take (acquireLoop app ms).2.1.length) :
    ∃ l₁ l₂, (acquireLoop app ms).1
      = l₁ ++ LEvent.factoryCall (f app).id :: LEvent.enter (f app).id :: l₂ := by
  induction ms with
  | nil => simp [acquireLoop] at hm
  | cons m rest ih =>
      cases m with
      | prepared cm =>
          by_cases h : cm.enterFails
          · simp [acquireLoop, resolveManager, h] at hm
          · simp only [acquireLoop, resolveManager, h, Bool.false_eq_true, if_false,
              List.length_cons, List.take_succ_cons, List.mem_cons] at hm
            rcases hm with heq | hmem
            · exact absurd heq (by simp)
            · obtain ⟨l₁, l₂, hl⟩ := ih hmem
              refine ⟨LEvent.enter cm.id :: l₁, l₂, ?_⟩
              simp [acquireLoop, resolveManager, h, hl]
      | factory g =>
          by_cases h : (g app).enterFails
          · simp [acquireLoop, resolveManager, h] at hm
          · simp only [acquireLoop, resolveManager, h, Bool.false_eq_true, if_false,
              List.length_cons, List.take_succ_cons, List.mem_cons] at hm
            rcases hm with heq | hmem
            · have hg : f = g := by injection heq
              subst hg
              exact ⟨[], (acquireLoop app rest).1, by
                simp [acquireLoop, resolveManager, h]⟩
            · obtain ⟨l₁, l₂, hl⟩ := ih hmem
              refine ⟨LEvent.factoryCall (g app).id :: LEvent.enter (g app).id :: l₁, l₂, ?_⟩
              simp [acquireLoop, resolveManager, h, hl]

/-- C2: for every sequence of registered lifespan managers, every affected
application, and both body outcomes (the server strategy returning or
raising) — and for every pattern of acquisition and release failures — the
supervisor enters exactly the longest acquirable prefix in registration
order, releases exactly the entered managers in strict reverse acquisition
order, each exactly once (even when some releases raise, since the trace
counts every attempted release), and every factory-style entry that gets
acquired is invoked first, immediately before its own acquisition. -/
theorem claim_C2_lifespan_release (A : Type) (app : A) (ms : List (LifespanManager A))
    (bodyRaises : Bool) (hnd : (acquiredIds app ms).Nodup) :
    enterIds (server_lifespan app ms bodyRaises).trace = acquiredIds app ms
    ∧ exitIds (server_lifespan app ms bodyRaises).trace = (acquiredIds app ms).reverse
    ∧ (∀ i : Nat, (server_lifespan app ms bodyRaises).trace.count (LEvent.exitEv i)
        = if i ∈ acquiredIds app ms then 1 else 0)
    ∧ (∀ f : A → CM, LifespanManager.factory f ∈ ms.take (acquiredIds app ms).length →
        ∃ l₁ l₂, (server_lifespan app ms bodyRaises).trace
          = l₁ ++ LEvent.factoryCall (f app).id :: LEvent.enter (f app).id :: l₂) := by
  have hacq := acquireLoop_acquired app ms
  have htrace : (server_lifespan app ms bodyRaises).trace
      = (acquireLoop app ms).1
        ++ (if (acquireLoop app ms).2.2 then [LEvent.body] else [])
        ++ (releaseLoop (acquireLoop app ms).2.1.reverse).1 := rfl
  have hmid : enterIds (if (acquireLoop app ms).2.2 then [LEvent.body] else []) = []
      ∧ exitIds (if (acquireLoop app ms).2.2 then [LEvent.body] else []) = [] := by
    cases (acquireLoop app ms).2.2 <;> simp [enterIds, exitIds]
  have hrel : (releaseLoop (acquireLoop app ms).2.1.reverse).1
      = (acquireLoop app ms).2.1.reverse.map (fun cm => LEvent.exitEv cm.id) :=
    releaseLoop_events _
  have henter : enterIds (server_lifespan app ms bodyRaises).trace = acquiredIds app ms := by
    rw [htrace, enterIds_append, enterIds_append, hmid.1, hrel, enterIds_map_exitEv,
      enterIds_acquireLoop, hacq]
    simp [acquiredIds]
  have hexit : exitIds (server_lifespan app ms bodyRaises).trace
      = (acquiredIds app ms).reverse := by
    rw [htrace, exitIds_append, exitIds_append, hmid.2, hrel, exitIds_map_exitEv,
      exitIds_acquireLoop, hacq]
    simp [acquiredIds]
  refine ⟨henter, hexit, ?_, ?_⟩
  · intro i
    rw [count_exitEv_eq_count_exitIds, hexit, List.count_reverse]
    by_cases hi : i ∈ acquiredIds app ms
    · simp [hi, List.count_eq_one_of_mem hnd hi]
    · simp [hi, List.count_eq_zero_of_not_mem hi]
  · intro f hf
    have hlen : (acquiredIds app ms).length = (acquireLoop app ms).2.1.length := by
      simp [acquiredIds, hacq]
    obtain ⟨l₁, l₂, hl⟩ := acquireLoop_factory_events app ms f (by rwa [hlen] at hf)
    refine ⟨l₁, l₂ ++ (if (acquireLoop app ms).2.2 then [LEvent.body] else [])
      ++ (releaseLoop (acquireLoop app ms).2.1.reverse).1, ?_⟩
    rw [htrace, hl]
    simp

/-- Witness for C2 at a concrete manager list `[1, factory 2, 3]` where the
body raises and manager 2's release raises: exit order is `[3, 2, 1]`. -/
theorem claim_C2_lifespan_release_witness :
    exitIds (server_lifespan () [LifespanManager.prepared ⟨1, false, false⟩,
      LifespanManager.factory (fun _ => ⟨2, false, true⟩),
      LifespanManager.prepared ⟨3, false, false⟩] true).trace = [3, 2, 1] := by
  rw [(claim_C2_lifespan_release Unit () [LifespanManager.prepared ⟨1, false, false⟩,
    LifespanManager.factory (fun _ => ⟨2, false, true⟩),
    LifespanManager.prepared ⟨3, false, false⟩] true (by decide)).2.1]
  decide

/-! ### The run command (`run_command`, core.py lines 155-259) -/

structure App where
  debug : Bool
  pdb_on_exception : Bool
deriving DecidableEq, Repr

/-- The fields of `LitestarEnv` (from `litestar/cli/_utils.py`, outside the
excerpt) that `run_command` reads; optional fields are `None` when the
corresponding environment variable is unset. -/
structure LitestarEnv where
  app : App
  app_path : String
  is_app_factory : Bool
  host : Option String
  port : Option Nat
  fd : Option Int
  uds : Option String
  reload : Bool
  reload_dirs : List String
  web_concurrency : Option Nat
  certfile_path : Option String
  keyfile_path : Option String
  create_self_signed_cert : Bool
deriving DecidableEq, Repr

/-- The CLI option values passed to `run_command` by click; defaults
(`port=8000`, `host="127.0.0.1"`, `wc=1`, …) are filled in by the parsing
layer, which is outside this core. -/
structure CliFlags where
  reload : Bool
  port : Nat
  wc : Nat
  host : String
  fd : Option Int
  uds : Option String
  debug : Bool
  reload_dir : List String
  pdb : Bool
  ssl_certfile : Option String
  ssl_keyfile : Option String
  create_self_signed_cert : Bool
deriving DecidableEq, Repr

structure ResolvedConfig where
  host : String
  port : Nat
  fd : Option Int
  uds : Option String
  reload : Bool
  reload_dirs : List String
  workers : Nat
  ssl_certfile : Option String
  ssl_keyfile : Option String
  create_self_signed_cert : Bool
deriving DecidableEq, Repr

/-- Embedding of the resolution block of `run_command` (core.py lines
202-213), line by line.  Python's `x or y` treats `None`, `""`, `0` and
`()` as falsy; `env.port` and `env.fd` are instead compared against `None`
explicitly in the source (`env.port if env.port is not None else port`). -/
def resolveConfig (env : LitestarEnv) (cli : CliFlags) : ResolvedConfig :=
  let reload_dirs := if env.reload_dirs = [] then cli.reload_dir else env.reload_dirs
  { host :=
      match env.host with
      | some h => if h = "" then cli.host else h
      | none => cli.host
    port := match env.port with | some p => p | none => cli.port
    fd := match env.fd with | some v => some v | none => cli.fd
    uds :=
      match env.uds with
      | some u => if u = "" then cli.uds else some u
      | none => cli.uds
    reload := env.reload || cli.reload || !(reload_dirs = [])
    reload_dirs := reload_dirs
    workers :=
      match env.web_concurrency with
      | some n => if n = 0 then cli.wc else n
      | none => cli.wc
    ssl_certfile :=
      match cli.ssl_certfile with
      | some c => if c = "" then env.certfile_path else some c
      | none => env.certfile_path
    ssl_keyfile :=
      match cli.ssl_keyfile with
      | some k => if k = "" then env.keyfile_path else some k
      | none => env.keyfile_path
    create_self_signed_cert := cli.create_self_signed_cert || env.create_self_signed_cert }

inductive TlsResult where
  | ok (cert key : Option String)
  | err
deriving DecidableEq, Repr

/-- Modelled from the spec: `validate_ssl_file_paths` lives in
`litestar/cli/_utils.py`, which is not part of this excerpt.  Per spec
§4.2 it fails with `ConfigurationError` if exactly one of the two paths is
supplied or if a supplied path does not exist, returns `(None, None)` when
both are absent, and returns both paths unchanged otherwise. -/
def validate_ssl_file_paths (fileExists : String → Bool)
    (certfile keyfile : Option String) : TlsResult :=
  match certfile, keyfile with
  | none, none => TlsResult.ok none none
  | some _, none => TlsResult.err
  | none, some _ => TlsResult.err
  | some c, some k =>
      if fileExists c && fileExists k then TlsResult.ok (some c) (some k)
      else TlsResult.err

/-- Modelled from the spec: `create_ssl_files` lives in
`litestar/cli/_utils.py`, which is not part of this excerpt.  Per spec
§4.2 it returns both target files unchanged when they already exist, and
otherwise synthesizes the pair at the given or default paths; either way
it yields both paths and does not fail. -/
def create_ssl_files (_fileExists : String → Bool)
    (certfile keyfile : Option String) (_host : String) : TlsResult :=
  TlsResult.ok (some (certfile.getD "certificate.pem"))
    (some (keyfile.getD "key.pem"))

/-- The TLS provisioning step of `run_command` (core.py lines 215-219). -/
def provisionTls (fileExists : String → Bool) (rc : ResolvedConfig) : TlsResult :=
  if rc.create_self_signed_cert then
    create_ssl_files fileExists rc.ssl_certfile rc.ssl_keyfile rc.host
  else
    validate_ssl_file_paths fileExists rc.ssl_certfile rc.ssl_keyfile

/-- The arguments of the in-process `uvicorn.run(...)` call (core.py lines
229-238). -/
structure DirectArgs where
  app_path : String
  host : String
  port : Nat
  fd : Option Int
  uds : Option String
  factory : Bool
  ssl_certfile : Option String
  ssl_keyfile : Option String
deriving DecidableEq, Repr

/-- Embedding of the `process_args` mapping built by
`_run_uvicorn_in_subprocess` (core.py lines 83-99), as an ordered
association list (Python dicts preserve insertion order). -/
def run_uvicorn_process_args (is_app_factory : Bool) (host : String) (port : Nat)
    (workers : Nat) (reload : Bool) (reload_dirs : List String) (fd : Option Int)
    (uds : Option String) (certfile_path keyfile_path : Option String) :
    List (String × UArg) :=
  [("reload", UArg.bool reload), ("host", UArg.other host),
      ("port", UArg.other (toString port)), ("workers", UArg.other (toString workers)),
      ("factory", UArg.bool is_app_factory)]
    ++ (match fd with | some v => [("fd", UArg.other (toString v))] | none => [])
    ++ (match uds with | some v => [("uds", UArg.other v)] | none => [])
    ++ (if reload_dirs = [] then [] else [("reload-dir", UArg.tuple reload_dirs)])
    ++ (match certfile_path with | some v => [("ssl-certfile", UArg.other v)] | none => [])
    ++ (match keyfile_path with | some v => [("ssl-keyfile", UArg.other v)] | none => [])

inductive Effect where
  | missingUvicornMsg
  | tlsProvision
  | lifespanEnter
  | debuggerWarning
  | serverDirect (args : DirectArgs)
  | serverSubprocess (app_path : String) (tokens : List String) (childExit : Int)
  | lifespanExit
deriving DecidableEq, Repr

inductive Outcome where
  | sysExit (code : Nat)
  | configError
  | launchError (code : Int)
  | ok
deriving DecidableEq, Repr

structure RunResult where
  effects : List Effect
  outcome : Outcome
  envDebug : Bool
  envPdb : Bool
  finalEnv : Option LitestarEnv
  factoryCalls : Nat
deriving DecidableEq, Repr

/-- `ctx.obj`: either a callable that produces the `LitestarEnv` or an
already-resolved one (core.py line 191 tests `callable(ctx.obj)`). -/
inductive CtxObj where
  | unresolved (f : Unit → LitestarEnv)
  | resolved (env : LitestarEnv)

/-- Ambient state `run_command` consults: whether uvicorn is importable,
the pre-existing `LITESTAR_DEBUG`/`LITESTAR_PDB` environment variables,
the filesystem (for TLS path validation), whether `sys.gettrace()` reports
a debugger, and the exit status the child uvicorn process would have. -/
structure World where
  uvicornInstalled : Bool
  priorEnvDebug : Bool
  priorEnvPdb : Bool
  fileExists : String → Bool
  debuggerAttached : Bool
  childExit : Int

/-- The `callable(ctx.obj)` branch (core.py lines 191-197): a callable
context object is invoked once; an already-resolved one has its app's
`debug`/`pdb_on_exception` attributes set when the flags are given.
Returns the resolved env together with the number of factory calls made. -/
def resolveCtx (ctxObj : CtxObj) (cli : CliFlags) : LitestarEnv × Nat :=
  match ctxObj with
  | CtxObj.unresolved f => (f (), 1)
  | CtxObj.resolved e =>
      ({ e with app :=
          { e.app with
            debug := if cli.debug then true else e.app.debug
            pdb_on_exception := if cli.pdb then true else e.app.pdb_on_exception } }, 0)

/-- Embedding of `run_command` (core.py lines 155-259): set the debug/pdb
environment variables, bail out with exit code 1 when uvicorn is missing,
resolve the context object, resolve the run configuration, provision TLS,
then run the chosen strategy inside the server lifespan scope.  The result
records the effect trace, the outcome, the final environment-variable and
application states, and how many times a callable context was invoked. -/
def run_command (w : World) (ctxObj : CtxObj) (cli : CliFlags) : RunResult :=
  let envDebug := w.priorEnvDebug || cli.debug
  let envPdb := w.priorEnvPdb || cli.pdb
  if w.uvicornInstalled = false then
    { effects := [Effect.missingUvicornMsg], outcome := Outcome.sysExit 1,
      envDebug := envDebug, envPdb := envPdb, finalEnv := none, factoryCalls := 0 }
  else
    let env := (resolveCtx ctxObj cli).1
    let rc := resolveConfig env cli
    match provisionTls w.fileExists rc with
    | TlsResult.err =>
        { effects := [Effect.tlsProvision], outcome := Outcome.configError,
          envDebug := envDebug, envPdb := envPdb, finalEnv := some env,
          factoryCalls := (resolveCtx ctxObj cli).2 }
    | TlsResult.ok cert key =>
        if rc.workers = 1 ∧ rc.reload = false then
          let args : DirectArgs :=
            { app_path := env.app_path, host := rc.host, port := rc.port,
              fd := rc.fd, uds := rc.uds, factory := env.is_app_factory,
              ssl_certfile := cert, ssl_keyfile := key }
          { effects := [Effect.tlsProvision, Effect.lifespanEnter,
              Effect.serverDirect args, Effect.lifespanExit],
            outcome := Outcome.ok, envDebug := envDebug, envPdb := envPdb,
            finalEnv := some env, factoryCalls := (resolveCtx ctxObj cli).2 }
        else
          { effects := [Effect.tlsProvision, Effect.lifespanEnter]
              ++ (if w.debuggerAttached then [Effect.debuggerWarning] else [])
              ++ [Effect.serverSubprocess env.app_path
                    (convert_uvicorn_args (run_uvicorn_process_args env.is_app_factory
                      rc.host rc.port rc.workers rc.reload rc.reload_dirs rc.fd rc.uds
                      cert key)) w.childExit,
                  Effect.lifespanExit],
            outcome := if w.childExit = 0 then Outcome.ok
              else Outcome.launchError w.childExit,
            envDebug := envDebug, envPdb := envPdb, finalEnv := some env,
            factoryCalls := (resolveCtx ctxObj cli).2 }

def RunResult.usedDirect (r : RunResult) : Bool :=
  r.effects.any (fun e => match e with | Effect.serverDirect _ => true | _ => false)

def RunResult.usedSubprocess (r : RunResult) : Bool :=
  r.effects.any (fun e => match e with | Effect.serverSubprocess _ _ _ => true | _ => false)

def RunResult.serverStarted (r : RunResult) : Bool :=
  r.usedDirect || r.usedSubprocess

def RunResult.subprocessLaunches (r : RunResult) : Nat :=
  r.effects.countP (fun e => match e with | Effect.serverSubprocess _ _ _ => true | _ => false)

def RunResult.directArgs (r : RunResult) : Option DirectArgs :=
  r.effects.findSome? (fun e => match e with | Effect.serverDirect a => some a | _ => none)

def RunResult.subprocessTokens (r : RunResult) : Option (List String) :=
  r.effects.findSome?
    (fun e => match e with | Effect.serverSubprocess _ toks _ => some toks | _ => none)

/-! ### Concrete fixtures used by the witnesses -/

def envDefault : LitestarEnv :=
  { app := { debug := false, pdb_on_exception := false }
    app_path := "app:app"
    is_app_factory := false
    host := none
    port := none
    fd := none
    uds := none
    reload := false
    reload_dirs := []
    web_concurrency := none
    certfile_path := none
    keyfile_path := none
    create_self_signed_cert := false }

def cliDefault : CliFlags :=
  { reload := false
    port := 8000
    wc := 1
    host := "127.0.0.1"
    fd := none
    uds := none
    debug := false
    reload_dir := []
    pdb := false
    ssl_certfile := none
    ssl_keyfile := none
    create_self_signed_cert := false }

def worldDefault : World :=
  { uvicornInstalled := true
    priorEnvDebug := false
    priorEnvPdb := false
    fileExists := fun _ => false
    debuggerAttached := false
    childExit := 0 }

/-! ### C1: strategy choice -/

/-- C1: once the configuration is resolved and TLS provisioning succeeds,
the direct in-process strategy is used if and only if the resolved worker
count is 1 and reload is off; otherwise the subprocess strategy is used. -/
theorem claim_C1_strategy_choice (w : World) (ctxObj : CtxObj) (cli : CliFlags)
    (rc : ResolvedConfig) (cert key : Option String)
    (huv : w.uvicornInstalled = true)
    (hrc : resolveConfig (resolveCtx ctxObj cli).1 cli = rc)
    (htls : provisionTls w.fileExists rc = TlsResult.ok cert key) :
    ((run_command w ctxObj cli).usedDirect = true ↔ (rc.workers = 1 ∧ rc.reload = false))
    ∧ ((run_command w ctxObj cli).usedSubprocess = true
        ↔ ¬(rc.workers = 1 ∧ rc.reload = false)) := by
  unfold run_command
  rw [huv]
  simp only [Bool.true_eq_false, if_false, hrc, htls]
  by_cases hcond : rc.workers = 1 ∧ rc.reload = false
  · simp [hcond, RunResult.usedDirect, RunResult.usedSubprocess]
  · cases hdbg : w.debuggerAttached <;>
      simp [hcond, hdbg, RunResult.usedDirect, RunResult.usedSubprocess]

/-- Witness for C1: with all defaults (one worker, no reload) the direct
strategy runs; with four workers the subprocess strategy runs. -/
theorem claim_C1_strategy_choice_witness :
    (run_command worldDefault (CtxObj.resolved envDefault) cliDefault).usedDirect = true
    ∧ (run_command worldDefault (CtxObj.resolved envDefault)
        { cliDefault with wc := 4 }).usedSubprocess = true :=
  ⟨(claim_C1_strategy_choice worldDefault (CtxObj.resolved envDefault) cliDefault
      (resolveConfig (resolveCtx (CtxObj.resolved envDefault) cliDefault).1 cliDefault)
      none none rfl rfl (by decide)).1.mpr (by decide),
   (claim_C1_strategy_choice worldDefault (CtxObj.resolved envDefault)
      { cliDefault with wc := 4 }
      (resolveConfig (resolveCtx (CtxObj.resolved envDefault)
        { cliDefault with wc := 4 }).1 { cliDefault with wc := 4 })
      none none rfl rfl (by decide)).2.mpr (by decide)⟩

/-! ### C4: no mutual-exclusivity check on bind options -/

theorem token_mem_convert {args : List (String × UArg)} {p : String × UArg} {tok : String}
    (hp : p ∈ args) (ht : tok ∈ uvicornArgTokens p) :
    tok ∈ convert_uvicorn_args args := by
  rw [convert_uvicorn_args_eq_flatten]
  exact List.mem_flatten.mpr ⟨uvicornArgTokens p, List.mem_map_of_mem _ hp, ht⟩

theorem fd_pair_mem (isf : Bool) (host : String) (port workers : Nat) (reload : Bool)
    (rds : List String) (f : Int) (uds : Option String) (cp kp : Option String) :
    ("fd", UArg.other (toString f))
      ∈ run_uvicorn_process_args isf host port workers reload rds (some f) uds cp kp := by
  simp [run_uvicorn_process_args]

theorem uds_pair_mem (isf : Bool) (host : String) (port workers : Nat) (reload : Bool)
    (rds : List String) (fd : Option Int) (u : String) (cp kp : Option String) :
    ("uds", UArg.other u)
      ∈ run_uvicorn_process_args isf host port workers reload rds fd (some u) cp kp := by
  simp [run_uvicorn_process_args]

/-- Counterexample to C4: with both `--fd 3` and `--uds /tmp/app.sock` set
(on top of the always-present host/port), `run_command` raises no
`ConfigurationError` and starts the server anyway. -/
theorem claim_C4_counterexample :
    (run_command worldDefault (CtxObj.resolved envDefault)
        { cliDefault with fd := some 3, uds := some "/tmp/app.sock" }).outcome
      ≠ Outcome.configError
    ∧ (run_command worldDefault (CtxObj.resolved envDefault)
        { cliDefault with fd := some 3, uds := some "/tmp/app.sock" }).serverStarted
      = true := by
  decide

/-- C4 amended: `run_command` performs no mutual-exclusivity check on the
bind options.  When both a file descriptor and a unix socket are set in the
resolved configuration (and TLS provisioning succeeds), the launch proceeds
with no `ConfigurationError`, a server is started, and every set bind
option is passed through to the server runtime — the in-process call
receives both `fd` and `uds`, and a subprocess invocation receives both the
`--fd` and `--uds` tokens. -/
theorem claim_C4_amended_no_exclusivity_check (w : World) (ctxObj : CtxObj)
    (cli : CliFlags) (rc : ResolvedConfig) (cert key : Option String) (f : Int)
    (u : String)
    (huv : w.uvicornInstalled = true)
    (hrc : resolveConfig (resolveCtx ctxObj cli).1 cli = rc)
    (htls : provisionTls w.fileExists rc = TlsResult.ok cert key)
    (hfd : rc.fd = some f) (huds : rc.uds = some u) :
    (run_command w ctxObj cli).outcome ≠ Outcome.configError
    ∧ (run_command w ctxObj cli).serverStarted = true
    ∧ (∀ a : DirectArgs, (run_command w ctxObj cli).directArgs = some a →
        a.fd = some f ∧ a.uds = some u)
    ∧ (∀ toks : List String, (run_command w ctxObj cli).subprocessTokens = some toks →
        ("--fd=" ++ toString f) ∈ toks ∧ ("--uds=" ++ u) ∈ toks) := by
  unfold run_command
  rw [huv]
  simp only [Bool.true_eq_false, if_false, hrc, htls]
  by_cases hcond : rc.workers = 1 ∧ rc.reload = false
  · simp [hcond, RunResult.serverStarted, RunResult.usedDirect, RunResult.usedSubprocess,
      RunResult.directArgs, RunResult.subprocessTokens, hfd, huds, Outcome.ok]
  · cases hdbg : w.debuggerAttached <;>
      refine ⟨?_, ?_, ?_, ?_⟩ <;>
      simp [hcond, hdbg, RunResult.serverStarted, RunResult.usedDirect,
        RunResult.usedSubprocess, RunResult.directArgs, RunResult.subprocessTokens] <;>
      first
        | (intro hzero; split at hzero <;> simp_all)
        | (rw [hfd, huds]
           exact ⟨token_mem_convert (fd_pair_mem _ _ _ _ _ _ _ _ _ _) (by simp [uvicornArgTokens]),
             token_mem_convert (uds_pair_mem _ _ _ _ _ _ _ _ _ _) (by simp [uvicornArgTokens])⟩)

/-- Witness for the amended C4 at `--fd 3 --uds /tmp/app.sock`. -/
theorem claim_C4_amended_no_exclusivity_check_witness :
    (run_command worldDefault (CtxObj.resolved envDefault)
        { cliDefault with fd := some 3, uds := some "/tmp/app.sock" }).serverStarted
      = true :=
  (claim_C4_amended_no_exclusivity_check worldDefault (CtxObj.resolved envDefault)
    { cliDefault with fd := some 3, uds := some "/tmp/app.sock" }
    (resolveConfig (resolveCtx (CtxObj.resolved envDefault)
      { cliDefault with fd := some 3, uds := some "/tmp/app.sock" }).1
      { cliDefault with fd := some 3, uds := some "/tmp/app.sock" })
    none none 3 "/tmp/app.sock" rfl rfl (by decide) (by decide) (by decide)).2.1

/-! ### C5: field resolution priority -/

/-- Counterexample to C5: for the TLS certificate path the CLI flag, not
the environment value, wins.  With `certfile_path = "env.pem"` discovered
from the environment and `--ssl-certfile cli.pem` on the command line, the
resolved value is `cli.pem`, not the claimed first-priority environment
value `env.pem`. -/
theorem claim_C5_counterexample :
    (resolveConfig { envDefault with certfile_path := some "env.pem" }
        { cliDefault with ssl_certfile := some "cli.pem" }).ssl_certfile
      = some "cli.pem"
    ∧ (resolveConfig { envDefault with certfile_path := some "env.pem" }
        { cliDefault with ssl_certfile := some "cli.pem" }).ssl_certfile
      ≠ some "env.pem" := by
  decide

/-- C5 amended: host, port, fd, uds, worker count and reload directories
resolve to the first non-empty value in the order environment value, then
CLI flag (the CLI value already carrying the hard default); the TLS
certificate and key paths resolve in the opposite order — the CLI flag
first, then the environment value. -/
theorem claim_C5_amended_resolution_priority (env : LitestarEnv) (cli : CliFlags) :
    ((∀ h, env.host = some h → h ≠ "" → (resolveConfig env cli).host = h)
      ∧ ((env.host = none ∨ env.host = some "") → (resolveConfig env cli).host = cli.host))
    ∧ ((∀ p, env.port = some p → (resolveConfig env cli).port = p)
      ∧ (env.port = none → (resolveConfig env cli).port = cli.port))
    ∧ ((∀ v, env.fd = some v → (resolveConfig env cli).fd = some v)
      ∧ (env.fd = none → (resolveConfig env cli).fd = cli.fd))
    ∧ ((∀ v, env.uds = some v → v ≠ "" → (resolveConfig env cli).uds = some v)
      ∧ ((env.uds = none ∨ env.uds = some "") → (resolveConfig env cli).uds = cli.uds))
    ∧ ((∀ n, env.web_concurrency = some n → n ≠ 0 → (resolveConfig env cli).workers = n)
      ∧ ((env.web_concurrency = none ∨ env.web_concurrency = some 0) →
          (resolveConfig env cli).workers = cli.wc))
    ∧ ((env.reload_dirs ≠ [] → (resolveConfig env cli).reload_dirs = env.reload_dirs)
      ∧ (env.reload_dirs = [] → (resolveConfig env cli).reload_dirs = cli.reload_dir))
    ∧ ((∀ c, cli.ssl_certfile = some c → c ≠ "" →
          (resolveConfig env cli).ssl_certfile = some c)
      ∧ ((cli.ssl_certfile = none ∨ cli.ssl_certfile = some "") →
          (resolveConfig env cli).ssl_certfile = env.certfile_path))
    ∧ ((∀ k, cli.ssl_keyfile = some k → k ≠ "" →
          (resolveConfig env cli).ssl_keyfile = some k)
      ∧ ((cli.ssl_keyfile = none ∨ cli.ssl_keyfile = some "") →
          (resolveConfig env cli).ssl_keyfile = env.keyfile_path)) := by
  refine ⟨⟨?_, ?_⟩, ⟨?_, ?_⟩, ⟨?_, ?_⟩, ⟨?_, ?_⟩, ⟨?_, ?_⟩, ⟨?_, ?_⟩, ⟨?_, ?_⟩, ⟨?_, ?_⟩⟩
  · intro h hh hne; simp [resolveConfig, hh, hne]
  · rintro (hh | hh) <;> simp [resolveConfig, hh]
  · intro p hp; simp [resolveConfig, hp]
  · intro hp; simp [resolveConfig, hp]
  · intro v hv; simp [resolveConfig, hv]
  · intro hv; simp [resolveConfig, hv]
  · intro v hv hne; simp [resolveConfig, hv, hne]
  · rintro (hv | hv) <;> simp [resolveConfig, hv]
  · intro n hn hne; simp [resolveConfig, hn, hne]
  · rintro (hn | hn) <;> simp [resolveConfig, hn]
  · intro hd; simp [resolveConfig, hd]
  · intro hd; simp [resolveConfig, hd]
  · intro c hc hne; simp [resolveConfig, hc, hne]
  · rintro (hc | hc) <;> simp [resolveConfig, hc]
  · intro k hk hne; simp [resolveConfig, hk, hne]
  · rintro (hk | hk) <;> simp [resolveConfig, hk]

/-- Witness for the amended C5: a host discovered from the environment
beats the CLI host, and a CLI TLS certificate path beats the environment
one. -/
theorem claim_C5_amended_resolution_priority_witness :
    (resolveConfig { envDefault with host := some "0.0.0.0" } cliDefault).host = "0.0.0.0"
    ∧ (resolveConfig { envDefault with certfile_path := some "env.pem" }
        { cliDefault with ssl_certfile := some "cli.pem" }).ssl_certfile
      = some "cli.pem" :=
  ⟨(claim_C5_amended_resolution_priority { envDefault with host := some "0.0.0.0" }
      cliDefault).1.1 "0.0.0.0" rfl (by decide),
   (claim_C5_amended_resolution_priority { envDefault with certfile_path := some "env.pem" }
      { cliDefault with ssl_certfile := some "cli.pem" }).2.2.2.2.2.2.1.1
      "cli.pem" rfl (by decide)⟩

/-! ### C6: boolean flags merge by logical OR -/

theorem run_command_env_vars (w : World) (ctxObj : CtxObj) (cli : CliFlags) :
    (run_command w ctxObj cli).envDebug = (w.priorEnvDebug || cli.debug)
    ∧ (run_command w ctxObj cli).envPdb = (w.priorEnvPdb || cli.pdb) := by
  unfold run_command
  by_cases hu : w.uvicornInstalled = false
  · simp [hu]
  · simp only [hu, if_false]
    cases htls : provisionTls w.fileExists (resolveConfig (resolveCtx ctxObj cli).1 cli) with
    | err => simp [htls]
    | ok cert key =>
        simp only [htls]
        repeat' split
        all_goals simp

/-- C6: the boolean behaviours merge by logical OR across their sources, so
any source enabling them wins and no lower-priority source can un-set them:
the process-wide debug flag is the OR of its pre-existing value and the
`--debug` flag (likewise pdb), the application's debug/pdb attributes (when
the context is already resolved) are the OR of their prior values and the
flags, resolved `reload` is the OR of the environment value, the CLI flag
and the presence of any resolved reload directories, and resolved
`create_self_signed_cert` is the OR of the CLI flag and the environment
value. -/
theorem claim_C6_boolean_or_merge (w : World) (ctxObj : CtxObj) (cli : CliFlags)
    (env e : LitestarEnv) :
    (run_command w ctxObj cli).envDebug = (w.priorEnvDebug || cli.debug)
    ∧ (run_command w ctxObj cli).envPdb = (w.priorEnvPdb || cli.pdb)
    ∧ (resolveCtx (CtxObj.resolved e) cli).1.app.debug = (e.app.debug || cli.debug)
    ∧ (resolveCtx (CtxObj.resolved e) cli).1.app.pdb_on_exception
        = (e.app.pdb_on_exception || cli.pdb)
    ∧ (resolveConfig env cli).reload
        = (env.reload || cli.reload || !((resolveConfig env cli).reload_dirs = []))
    ∧ (resolveConfig env cli).create_self_signed_cert
        = (cli.create_self_signed_cert || env.create_self_signed_cert) := by
  refine ⟨(run_command_env_vars w ctxObj cli).1, (run_command_env_vars w ctxObj cli).2,
    ?_, ?_, ?_, ?_⟩
  · cases hd : cli.debug <;> simp [resolveCtx, hd]
  · cases hp : cli.pdb <;> simp [resolveCtx, hp]
  · simp [resolveConfig]
  · rfl

/-! ### C7: assembly order of the subprocess option mapping -/

/-- Counterexample to C7: with two workers and all other options at their
defaults, the marshalled tokens are `["--host=…", "--port=…",
"--workers=2"]` — host and port precede workers, so the assembly order is
not "workers, host, port, then conditional extras". -/
theorem claim_C7_counterexample :
    convert_uvicorn_args
        (run_uvicorn_process_args false "127.0.0.1" 8000 2 false [] none none none none)
      = ["--host=127.0.0.1", "--port=8000", "--workers=2"]
    ∧ convert_uvicorn_args
        (run_uvicorn_process_args false "127.0.0.1" 8000 2 false [] none none none none)
      ≠ ["--workers=2", "--host=127.0.0.1", "--port=8000"] := by
  decide

/-- C7 amended: the marshalled token sequence follows the order in which
`_run_uvicorn_in_subprocess` assembled the option mapping, and that
assembly order is reload, host, port, workers, factory, then the
conditional extras in the order fd, uds, reload-dir, ssl-certfile,
ssl-keyfile. -/
theorem claim_C7_amended_assembly_order (isf : Bool) (host : String)
    (port workers : Nat) (reload : Bool) (rds : List String) (fd : Option Int)
    (uds : Option String) (cp kp : Option String) :
    (run_uvicorn_process_args isf host port workers reload rds fd uds cp kp).map
        Prod.fst
      = ["reload", "host", "port", "workers", "factory"]
        ++ (if fd.isSome then ["fd"] else [])
        ++ (if uds.isSome then ["uds"] else [])
        ++ (if rds = [] then [] else ["reload-dir"])
        ++ (if cp.isSome then ["ssl-certfile"] else [])
        ++ (if kp.isSome then ["ssl-keyfile"] else [])
    ∧ convert_uvicorn_args
        (run_uvicorn_process_args isf host port workers reload rds fd uds cp kp)
      = ((run_uvicorn_process_args isf host port workers reload rds fd uds cp kp).map
          uvicornArgTokens).flatten := by
  constructor
  · cases fd <;> cases uds <;> cases cp <;> cases kp <;>
      by_cases h : rds = [] <;> simp [run_uvicorn_process_args, h]
  · exact convert_uvicorn_args_eq_flatten _

/-! ### C8: non-zero child exit status -/

/-- C8: when the subprocess strategy is chosen and the child uvicorn
process exits with a non-zero status, the launch fails with an error
carrying exactly the child's exit status (`subprocess.run(..., check=True)`
raising `CalledProcessError`), and exactly one launch attempt is made — the
launch is not retried. -/
theorem claim_C8_subprocess_failure (w : World) (ctxObj : CtxObj) (cli : CliFlags)
    (rc : ResolvedConfig) (cert key : Option String)
    (huv : w.uvicornInstalled = true)
    (hrc : resolveConfig (resolveCtx ctxObj cli).1 cli = rc)
    (htls : provisionTls w.fileExists rc = TlsResult.ok cert key)
    (hsub : ¬(rc.workers = 1 ∧ rc.reload = false))
    (hexit : w.childExit ≠ 0) :
    (run_command w ctxObj cli).outcome = Outcome.launchError w.childExit
    ∧ (run_command w ctxObj cli).subprocessLaunches = 1 := by
  unfold run_command
  rw [huv]
  simp only [Bool.true_eq_false, if_false, hrc, htls]
  cases hdbg : w.debuggerAttached <;>
    simp [hsub, hdbg, hexit, RunResult.subprocessLaunches]

/-- Witness for C8: two workers and a child exiting with status 3 produce
`LaunchError 3`. -/
theorem claim_C8_subprocess_failure_witness :
    (run_command { worldDefault with childExit := 3 } (CtxObj.resolved envDefault)
        { cliDefault with wc := 2 }).outcome = Outcome.launchError 3
    ∧ (run_command { worldDefault with childExit := 3 } (CtxObj.resolved envDefault)
        { cliDefault with wc := 2 }).subprocessLaunches = 1 :=
  claim_C8_subprocess_failure { worldDefault with childExit := 3 }
    (CtxObj.resolved envDefault) { cliDefault with wc := 2 }
    (resolveConfig (resolveCtx (CtxObj.resolved envDefault)
      { cliDefault with wc := 2 }).1 { cliDefault with wc := 2 })
    none none rfl rfl (by decide) (by decide) (by decide)

/-! ### C9: missing server runtime -/

/-- C9: when uvicorn is not installed, `run_command` prints the
user-facing message and exits with code 1, and its effect trace contains no
lifespan entry, no TLS provisioning and no server start of either kind. -/
theorem claim_C9_missing_uvicorn (w : World) (ctxObj : CtxObj) (cli : CliFlags)
    (huv : w.uvicornInstalled = false) :
    (run_command w ctxObj cli).outcome = Outcome.sysExit 1
    ∧ (run_command w ctxObj cli).effects = [Effect.missingUvicornMsg]
    ∧ Effect.lifespanEnter ∉ (run_command w ctxObj cli).effects
    ∧ Effect.tlsProvision ∉ (run_command w ctxObj cli).effects
    ∧ (run_command w ctxObj cli).serverStarted = false := by
  unfold run_command
  simp [huv, RunResult.serverStarted, RunResult.usedDirect, RunResult.usedSubprocess]

/-- Witness for C9 with uvicorn absent. -/
theorem claim_C9_missing_uvicorn_witness :
    (run_command { worldDefault with uvicornInstalled := false }
        (CtxObj.resolved envDefault) cliDefault).outcome = Outcome.sysExit 1
    ∧ (run_command { worldDefault with uvicornInstalled := false }
        (CtxObj.resolved envDefault) cliDefault).effects = [Effect.missingUvicornMsg] :=
  ⟨(claim_C9_missing_uvicorn { worldDefault with uvicornInstalled := false }
      (CtxObj.resolved envDefault) cliDefault rfl).1,
   (claim_C9_missing_uvicorn { worldDefault with uvicornInstalled := false }
      (CtxObj.resolved envDefault) cliDefault rfl).2.1⟩

/-! ### C10: callable versus resolved context object -/

theorem run_command_final_ctx (w : World) (ctxObj : CtxObj) (cli : CliFlags)
    (huv : w.uvicornInstalled = true) :
    (run_command w ctxObj cli).finalEnv = some (resolveCtx ctxObj cli).1
    ∧ (run_command w ctxObj cli).factoryCalls = (resolveCtx ctxObj cli).2 := by
  unfold run_command
  simp only [huv, Bool.true_eq_false, if_false]
  cases htls : provisionTls w.fileExists (resolveConfig (resolveCtx ctxObj cli).1 cli) with
  | err => simp [htls]
  | ok cert key =>
      simp only [htls]
      repeat' split
      all_goals simp

/-- C10: when the context object is callable it is invoked exactly once and
the resulting environment — in particular its app's `debug` and
`pdb_on_exception` attributes — is left untouched even when `--debug` or
`--pdb` are given; only the process environment variables pick the flags
up.  When the context object is already resolved, the app attributes are
mutated (OR-ed with the flags). -/
theorem claim_C10_ctx_resolution (w : World) (cli : CliFlags)
    (f : Unit → LitestarEnv) (e : LitestarEnv)
    (huv : w.uvicornInstalled = true) :
    (run_command w (CtxObj.unresolved f) cli).factoryCalls = 1
    ∧ (run_command w (CtxObj.unresolved f) cli).finalEnv = some (f ())
    ∧ (run_command w (CtxObj.unresolved f) cli).envDebug = (w.priorEnvDebug || cli.debug)
    ∧ (run_command w (CtxObj.unresolved f) cli).envPdb = (w.priorEnvPdb || cli.pdb)
    ∧ (run_command w (CtxObj.resolved e) cli).factoryCalls = 0
    ∧ (run_command w (CtxObj.resolved e) cli).finalEnv
        = some { e with app :=
            { debug := e.app.debug || cli.debug
              pdb_on_exception := e.app.pdb_on_exception || cli.pdb } } := by
  refine ⟨(run_command_final_ctx w (CtxObj.unresolved f) cli huv).2,
    (run_command_final_ctx w (CtxObj.unresolved f) cli huv).1,
    (run_command_env_vars w (CtxObj.unresolved f) cli).1,
    (run_command_env_vars w (CtxObj.unresolved f) cli).2,
    (run_command_final_ctx w (CtxObj.resolved e) cli huv).2, ?_⟩
  rw [(run_command_final_ctx w (CtxObj.resolved e) cli huv).1]
  cases hd : cli.debug <;> cases hp : cli.pdb <;> simp [resolveCtx, hd, hp]

/-- Witness for C10: a callable context with `--debug --pdb` is invoked
once and its app attributes stay `false`. -/
theorem claim_C10_ctx_resolution_witness :
    (run_command worldDefault (CtxObj.unresolved (fun _ => envDefault))
        { cliDefault with debug := true, pdb := true }).factoryCalls = 1
    ∧ (run_command worldDefault (CtxObj.unresolved (fun _ => envDefault))
        { cliDefault with debug := true, pdb := true }).finalEnv = some envDefault :=
  ⟨(claim_C10_ctx_resolution worldDefault { cliDefault with debug := true, pdb := true }
      (fun _ => envDefault) envDefault rfl).1,
   (claim_C10_ctx_resolution worldDefault { cliDefault with debug := true, pdb := true }
      (fun _ => envDefault) envDefault rfl).2.1⟩

end LitestarRun
